import Mathlib

/-!
Shallow embedding of the Facebook Marketplace scraper
(`product-scraper.ts` and the extended `index.ts` variant embedded in the
repository README).  The browser, the LLM extraction call and the file
system are external collaborators: they are modelled by input data
(per-URL outcomes, a random stream, the parsed shape of an input file),
and the pipeline's observable behaviour is modelled as a trace of events.
-/

namespace FBScraper

/-- A JavaScript runtime value as it can appear as a thrown exception or as
the `message` property of one.  `errorObj m` is an `Error` instance whose
`message` field is `m`; `objWithMessage v` is a plain (non-`Error`) object
that has a `message` property with value `v`; `objPlain` is an object
without a `message` property. -/
inductive JSVal where
  | errorObj (message : String)
  | str (s : String)
  | objWithMessage (message : JSVal)
  | objPlain
  | nullV
  | undef
  | num (n : Int)
  | boolV (b : Bool)
deriving DecidableEq, Repr

/-- JavaScript `String(v)` conversion, as used by
`String((error as Record<string, unknown>).message)` in the catch branch.
`String` of an `Error` instance uses `Error.prototype.toString`, which
yields `"Error: " + message`; plain objects stringify to
`"[object Object]"`. -/
def jsToString : JSVal → String
  | .errorObj m => "Error: " ++ m
  | .str s => s
  | .objWithMessage _ => "[object Object]"
  | .objPlain => "[object Object]"
  | .nullV => "null"
  | .undef => "undefined"
  | .num n => toString n
  | .boolV b => if b then "true" else "false"

/-- The error-message normalization of `extractProductInfo`'s catch branch:
`errorMessage` starts as `"Unknown error"`, is replaced by `error.message`
when `error instanceof Error`, by `error` itself when
`typeof error === "string"`, and by `String(error.message)` when `error`
is a truthy object with a `message` property.  `null` fails the `error &&`
guard, and primitives fail `typeof error === "object"`, so they keep the
fallback. -/
def errorMessage : JSVal → String
  | .errorObj m => m
  | .str s => s
  | .objWithMessage v => jsToString v
  | .objPlain => "Unknown error"
  | .nullV => "Unknown error"
  | .undef => "Unknown error"
  | .num _ => "Unknown error"
  | .boolV _ => "Unknown error"

/-- The `Product` record of `ProductSchema` (the `product` object): all
fields are strings. -/
structure Product where
  title : String
  price : String
  brand : String
  model : String
  cpu : String
  ram : String
  storage : String
  availability : String
  quantity : String
  location : String
  description : String
  imageUrl : String
  originalUrl : String
deriving DecidableEq, Repr

/-- Outcome of the external `scraper.run(page, ProductSchema, ...)` call:
either structured data matching the schema, or a thrown value. -/
inductive ExtractOutcome where
  | success (data : Product)
  | failure (e : JSVal)
deriving DecidableEq, Repr

/-- `extractProductInfo(page, scraper, originalUrl)`: on success the spread
`{ ...data.product, originalUrl }` overwrites `originalUrl`; on any thrown
value the catch branch normalizes the error to a message and returns the
failure placeholder. -/
def extractProductInfo (outcome : ExtractOutcome) (originalUrl : String) : Product :=
  match outcome with
  | .success data => { data with originalUrl := originalUrl }
  | .failure e =>
      { title := "Extraction Failed"
        price := "Unknown"
        brand := "Unknown"
        model := "Unknown"
        cpu := "Unknown"
        ram := "Unknown"
        storage := "Unknown"
        availability := "Unknown"
        quantity := "Unknown"
        location := "Unknown"
        description := "Failed to extract information: " ++ errorMessage e
        imageUrl := ""
        originalUrl := originalUrl }

/-- What the external collaborators do for one URL of the `scrapeProducts`
loop.  `ctxError e`: `browser.newContext` throws, so no browsing context
is created.  `navError e`: the context is created but `context.newPage()`
or `page.goto(url, { timeout: 30000 })` throws.  `navOk outcome`: the
navigation succeeds and the extraction call finishes with `outcome`
(`extractProductInfo` itself never throws: it converts failures into the
placeholder). -/
inductive UrlStep where
  | ctxError (e : JSVal)
  | navError (e : JSVal)
  | navOk (outcome : ExtractOutcome)
deriving DecidableEq, Repr

/-- Observable events of one run of the `scrapeProducts` loop.  The index
of `openContext`/`closeContext` is the loop index `i` of the iteration
that owns the browsing context. -/
inductive Event where
  | openContext (i : Nat)
  | closeContext (i : Nat)
  | push (p : Product)
  | delay (ms : Nat)
deriving DecidableEq, Repr

/-- `Math.floor(Math.random() * 2000) + 1000`, for one draw
`r = Math.random()` (a number in `[0, 1)`, modelled as a rational). -/
def randomDelay (r : ℚ) : Nat := (⌊r * 2000⌋).toNat + 1000

/-- The events of iteration `i` of the `scrapeProducts` loop over `n`
URLs, given the collaborators' behaviour `step` and the random draw `r`.
The per-URL `try` block opens the context, opens a page, navigates,
pushes the extraction result, closes the context, and sleeps when
`i < urls.length - 1`; the per-URL `catch` only logs, so a thrown
navigation error ends the iteration at the point of the throw. -/
def iterEvents (n i : Nat) (url : String) (step : UrlStep) (r : ℚ) : List Event :=
  match step with
  | .ctxError _ => []
  | .navError _ => [.openContext i]
  | .navOk outcome =>
      [.openContext i, .push (extractProductInfo outcome url), .closeContext i] ++
        (if i < n - 1 then [.delay (randomDelay r)] else [])

/-- The loop of `scrapeProducts` from index `i` over the remaining URLs
(each paired with its collaborators' behaviour); `rand` is the stream of
`Math.random()` draws, indexed by loop index. -/
def scrapeAux (n : Nat) (rand : Nat → ℚ) : Nat → List (String × UrlStep) → List Event
  | _, [] => []
  | i, (url, step) :: rest => iterEvents n i url step (rand i) ++ scrapeAux n rand (i + 1) rest

/-- The full event trace of the `scrapeProducts` loop. -/
def scrapeTrace (inputs : List (String × UrlStep)) (rand : Nat → ℚ) : List Event :=
  scrapeAux inputs.length rand 0 inputs

/-- The product recorded by a `push` event, if any. -/
def pushedProduct : Event → Option Product
  | .push p => some p
  | _ => none

/-- The `products` array returned by `scrapeProducts`: the values pushed
during the run, in push order. -/
def scrapeProducts (inputs : List (String × UrlStep)) (rand : Nat → ℚ) : List Product :=
  (scrapeTrace inputs rand).filterMap pushedProduct

/-! Reporter: the price statistics of `displayProducts`. -/

/-- `price.replace(/[^0-9.]/g, '')`: keep only decimal digits and the
decimal point. -/
def stripNonNumeric (s : String) : String :=
  ⟨s.data.filter fun c => c.isDigit || c == '.'⟩

/-- Value of a (possibly empty) digit string, most significant first. -/
def digitsNat (ds : List Char) : ℕ :=
  ds.foldl (fun acc c => acc * 10 + (c.toNat - 48)) 0

/-- The integer digits, fraction digits and fraction length of the longest
decimal-literal prefix of a digits-and-dots string; `none` when there is
no such prefix. -/
def parseFloatParts (s : String) : Option (ℕ × ℕ × ℕ) :=
  let intPart := s.data.takeWhile Char.isDigit
  let rest := s.data.drop intPart.length
  let fracPart :=
    match rest with
    | '.' :: r => r.takeWhile Char.isDigit
    | _ => []
  if intPart.isEmpty && fracPart.isEmpty then none
  else some (digitsNat intPart, digitsNat fracPart, fracPart.length)

/-- JavaScript `parseFloat` restricted to strings of digits and dots (the
image of `stripNonNumeric`): the longest prefix matching a decimal literal
is parsed; no such prefix (empty string, or a string starting with two
dots or a lone dot) gives `NaN`, modelled as `none`. -/
def parseFloatDigits (s : String) : Option ℚ :=
  match parseFloatParts s with
  | none => none
  | some (a, b, k) => some ((a : ℚ) + (b : ℚ) / 10 ^ k)

/-- The per-record price parse of `displayProducts`:
`p.price !== "Unknown" ? parseFloat(p.price.replace(/[^0-9.]/g, '')) : NaN`,
with `NaN` as `none` (such entries are removed by the `!isNaN` filter). -/
def parsePrice (price : String) : Option ℚ :=
  if price = "Unknown" then none else parseFloatDigits (stripNonNumeric price)

/-- The `prices` array of `displayProducts`: parsed prices of all records,
`NaN` entries filtered out. -/
def pricesOf (products : List Product) : List ℚ :=
  products.filterMap fun p => parsePrice p.price

/-- `products.filter(p => p.title !== "Extraction Failed").length`. -/
def successfulCount (products : List Product) : Nat :=
  (products.filter fun p => p.title != "Extraction Failed").length

/-- `Math.min` of two numbers. -/
def jsMin (a b : ℚ) : ℚ := if a ≤ b then a else b

/-- `Math.max` of two numbers. -/
def jsMax (a b : ℚ) : ℚ := if b ≤ a then a else b

/-- The price statistics `displayProducts` prints: `(min, max, average)`,
printed only when there is at least one successful record and at least one
parsed price (`none` when nothing is printed).  `min`/`max` are
`Math.min(...prices)`/`Math.max(...prices)` and `average` is
`prices.reduce((sum, price) => sum + price, 0) / prices.length`. -/
def priceStats (products : List Product) : Option (ℚ × ℚ × ℚ) :=
  if 0 < successfulCount products then
    match pricesOf products with
    | [] => none
    | p :: ps =>
        some (ps.foldl jsMin p, ps.foldl jsMax p,
          ((p :: ps).foldl (· + ·) 0) / ((p :: ps).length : ℚ))
  else none

/-! Persister: the CSV serialization of `saveProductsToCSV`. -/

/-- `cell.replace(/"/g, '""')`: each double-quote character is replaced by
two double-quote characters, character by character (the pattern is a
single-character class, so the global replace acts independently on each
character). -/
def escapeQuotes : List Char → List Char
  | [] => []
  | c :: cs => if c = '"' then '"' :: '"' :: escapeQuotes cs else c :: escapeQuotes cs

/-- One cell of the CSV:
`cell ? `"${cell.replace(/"/g, '""')}"` : ""` — a truthy (non-empty) cell
is wrapped in double quotes with internal double quotes doubled, an empty
cell renders as the empty string. -/
def escapeCsvCell (cell : String) : String :=
  if cell = "" then "" else "\"" ++ String.mk (escapeQuotes cell.data) ++ "\""

/-- The fixed CSV header row, unescaped, joined by commas in
`headers.join(",")`. -/
def csvHeaders : List String :=
  ["Title", "Price", "Brand", "Model", "CPU", "RAM", "Storage",
   "Availability", "Quantity", "Location", "Description", "Image URL",
   "Original URL"]

/-- The row built for one product in `saveProductsToCSV`. -/
def productRow (p : Product) : List String :=
  [p.title, p.price, p.brand, p.model, p.cpu, p.ram, p.storage,
   p.availability, p.quantity, p.location, p.description, p.imageUrl,
   p.originalUrl]

/-- The full CSV text: header row then one escaped row per product, rows
joined by newline, fields by comma. -/
def csvContent (products : List Product) : String :=
  String.intercalate "\n"
    (String.intercalate "," csvHeaders ::
      products.map fun p => String.intercalate "," ((productRow p).map escapeCsvCell))

/-! URL Source: `readUrlsFromFile` of the extended variant. -/

/-- A parsed JSON value (`JSON.parse` output).  Object field names are
taken to be distinct, as `JSON.parse` keeps one binding per key. -/
inductive Json where
  | jnull
  | jbool (b : Bool)
  | jnum (q : ℚ)
  | jstr (s : String)
  | jarr (elems : List Json)
  | jobj (fields : List (String × Json))

/-- JavaScript truthiness of a JSON value (`NaN` cannot come out of
`JSON.parse`, so a number is falsy exactly when it is zero). -/
def jsTruthy : Json → Bool
  | .jnull => false
  | .jbool b => b
  | .jnum q => q != 0
  | .jstr s => s != ""
  | .jarr _ => true
  | .jobj _ => true

/-- `Array.isArray`. -/
def isArray : Json → Bool
  | .jarr _ => true
  | _ => false

/-- The elements of a JSON array (only used under `isArray`). -/
def jarrElems : Json → List Json
  | .jarr elems => elems
  | _ => []

/-- Which control path `readUrlsFromFile` took: returned `jsonData`
directly (`jsonArray`), returned `jsonData.urls` (`jsonUrlsProp`), took
the line-oriented branch of the inner `catch` (`textFallback`), or threw
`"Could not parse input file format"` and was caught by the outer catch
(`errorCaught`). -/
inductive UrlsPath where
  | jsonArray
  | jsonUrlsProp
  | textFallback
  | errorCaught
deriving DecidableEq, Repr

/-- `content.split("\n")`: the chunks between occurrences of the newline
character, empty chunks kept (splitting the empty string gives one empty
chunk, as in JavaScript). -/
def splitLines : List Char → List (List Char)
  | [] => [[]]
  | c :: rest =>
      match splitLines rest with
      | [] => [[]]
      | l :: ls => if c = '\n' then [] :: l :: ls else (c :: l) :: ls

/-- JavaScript whitespace as far as `String.prototype.trim` is concerned,
restricted to the ASCII white space characters. -/
def isJsSpace (c : Char) : Bool :=
  c = ' ' || c = '\t' || c = '\n' || c = '\r' || c = '\x0b' || c = '\x0c'

/-- `line.trim()`: remove leading and trailing whitespace. -/
def trimChars (cs : List Char) : List Char :=
  ((cs.dropWhile isJsSpace).reverse.dropWhile isJsSpace).reverse

/-- The characters of `"http"`, for `line.startsWith("http")`. -/
def httpChars : List Char := ['h', 't', 't', 'p']

/-- The line-oriented branch:
`fileContent.split("\n").map(line => line.trim()).filter(line => line.length > 0 && line.startsWith("http"))`. -/
def textUrls (content : String) : List String :=
  ((((splitLines content.data).map trimChars).filter fun l =>
    decide (l.length > 0) && httpChars.isPrefixOf l).map String.mk)

/-- `readUrlsFromFile(filePath)` after the file read succeeded with
`content`; `parsed` is the outcome of `JSON.parse(content)` (`none` when
it throws).  Returned is the URL list (elements of the untyped `string[]`
return, hence `Json` values) together with the control path taken.
`jsonData.urls` on `null` throws a `TypeError` inside the inner `try`, so
JSON `null` falls into the same `catch` as a parse failure; primitives
and arrays have no `urls` property, and an object whose `urls` is falsy
or not an array falls through to the trailing
`throw new Error("Could not parse input file format")`, which the outer
catch converts to `[]`. -/
def readUrlsFromFile (content : String) (parsed : Option Json) : List Json × UrlsPath :=
  match parsed with
  | none => ((textUrls content).map Json.jstr, .textFallback)
  | some j =>
      match j with
      | .jarr elems => (elems, .jsonArray)
      | .jnull => ((textUrls content).map Json.jstr, .textFallback)
      | .jobj fields =>
          match fields.lookup "urls" with
          | some u =>
              if jsTruthy u && isArray u then (jarrElems u, .jsonUrlsProp)
              else ([], .errorCaught)
          | none => ([], .errorCaught)
      | _ => ([], .errorCaught)

/-! `main` of the extended variant: URL choice, credential check, output
files. -/

/-- The built-in example URLs of `main`. -/
def exampleUrls : List String :=
  ["https://www.facebook.com/marketplace/item/3205154652960339/",
   "https://www.facebook.com/marketplace/item/664792412773207/",
   "https://www.facebook.com/marketplace/item/3856292544625767/"]

/-- `main`'s choice of `urlsToScrape` when an input file was given and
read as `fromFile`: the file's URLs when there is at least one, the
example list otherwise. -/
def chooseUrls (fromFile : List Json) : List Json :=
  if 0 < fromFile.length then fromFile else exampleUrls.map Json.jstr

/-- Top-level observable events of one run of `main`. -/
inductive TopEvent where
  | createOutputDir
  | browserLaunch
  | loopEvent (e : Event)
  | browserClose
  | writeJsonFile (filename : String)
  | writeCsvFile (filename : String)
  | logError (msg : String)
deriving DecidableEq, Repr

/-- `!process.env.OPENAI_API_KEY`: the variable is absent or empty. -/
def envKeyMissing : Option String → Bool
  | none => true
  | some k => k == ""

/-- `scrapeProducts` including its precondition: when the credential is
missing it throws before the browser is launched; otherwise the browser
is launched, the loop runs, and the browser is closed in the `finally`. -/
def scrapeProductsRun (apiKey : Option String) (inputs : List (String × UrlStep))
    (rand : Nat → ℚ) : Except String (List TopEvent × List Product) :=
  if envKeyMissing apiKey then
    .error "OPENAI_API_KEY environment variable is not set"
  else
    .ok (.browserLaunch :: (scrapeTrace inputs rand).map .loopEvent ++ [.browserClose],
      scrapeProducts inputs rand)

/-- The event trace of `main` after the URL list is fixed: the output
directory is created up front, then `scrapeProducts` runs inside `try`;
on success the JSON and CSV artifacts are written, on a thrown error the
catch only logs it. -/
def mainRun (apiKey : Option String) (inputs : List (String × UrlStep)) (rand : Nat → ℚ)
    (outputPrefix : String) : List TopEvent :=
  .createOutputDir ::
    match scrapeProductsRun apiKey inputs rand with
    | .error msg => [.logError msg]
    | .ok (tr, _products) =>
        tr ++ [.writeJsonFile (outputPrefix ++ ".json"), .writeCsvFile (outputPrefix ++ ".csv")]

/-! Derived predicates and concrete fixtures. -/

/-- Whether iteration `i` of the loop creates a browsing context: it does
unless `browser.newContext` itself throws. -/
def opensContext : UrlStep → Bool
  | .ctxError _ => false
  | .navError _ => true
  | .navOk _ => true

/-- Whether iteration `i` reaches the `context.close()` call: only when
navigation succeeded and the extraction call returned. -/
def closesContext : UrlStep → Bool
  | .navOk _ => true
  | _ => false

/-- The record an input URL contributes to the output array: the
extraction result (success or placeholder) when navigation succeeded,
nothing when the iteration threw before the `push`. -/
def recordOf (p : String × UrlStep) : Option Product :=
  match p.2 with
  | .navOk outcome => some (extractProductInfo outcome p.1)
  | _ => none

/-- Whether an event is an inter-request delay. -/
def isDelay : Event → Bool
  | .delay _ => true
  | _ => false

/-- A sample successfully extracted listing. -/
def sampleListing : Product :=
  { title := "Gaming PC", price := "$450", brand := "Custom", model := "Tower",
    cpu := "Intel i5-9400F", ram := "16GB DDR4", storage := "1TB SSD",
    availability := "Available", quantity := "1", location := "Chicago, IL",
    description := "Runs great", imageUrl := "https://img.example/1.jpg",
    originalUrl := "https://www.facebook.com/marketplace/item/1/" }

/-- A one-URL run whose navigation times out. -/
def navFailRun : List (String × UrlStep) :=
  [("https://www.facebook.com/marketplace/item/1/",
    UrlStep.navError (.errorObj "page.goto: Timeout 30000ms exceeded."))]

/-- A two-URL run: the first navigation throws, the second URL succeeds. -/
def leakRun : List (String × UrlStep) :=
  [("https://u0", UrlStep.navError (.errorObj "net::ERR_FAILED")),
   ("https://u1", UrlStep.navOk (.success sampleListing))]

/-- A two-URL run in which both URLs succeed. -/
def twoOkRun : List (String × UrlStep) :=
  [("https://a", UrlStep.navOk (.success sampleListing)),
   ("https://b", UrlStep.navOk (.success sampleListing))]

/-- A two-URL run whose first iteration throws during navigation. -/
def delaySkippedRun : List (String × UrlStep) :=
  [("https://u0", UrlStep.navError (.errorObj "page.goto: Timeout 30000ms exceeded.")),
   ("https://u1", UrlStep.navOk (.success sampleListing))]

/-- Three records as in the specification's statistics example: successful
listings priced `"$100"` and `"$300"`, and one failure placeholder (whose
price is the sentinel `"Unknown"`). -/
def statsRun : List Product :=
  [{ sampleListing with price := "$100" },
   { sampleListing with title := "Office PC", price := "$300" },
   extractProductInfo (.failure (.errorObj "boom"))
     "https://www.facebook.com/marketplace/item/3/"]

/-- Two records, one of which carries the failure title but a parseable
price. -/
def mixedRun : List Product :=
  [{ sampleListing with title := "Extraction Failed", price := "$50" },
   { sampleListing with price := "$300" }]

/-- The specification's wording of a CSV field: wrapped in double quotes
with each internal double quote doubled, empty field left as an empty
cell. -/
def specEscapedCell (cell : String) : String :=
  if cell = "" then ""
  else "\"" ++ String.mk (cell.data.flatMap fun c => if c = '"' then ['"', '"'] else [c]) ++ "\""

/-! Helper lemmas about the loop trace. -/

lemma filterMap_pushedProduct_iterEvents (n i : Nat) (url : String) (step : UrlStep) (r : ℚ) :
    (iterEvents n i url step r).filterMap pushedProduct =
      (recordOf (url, step)).toList := by
  cases step with
  | ctxError e => simp [iterEvents, recordOf]
  | navError e => simp [iterEvents, recordOf, pushedProduct]
  | navOk outcome =>
      simp only [iterEvents, recordOf]
      split <;> simp [pushedProduct]

lemma filterMap_pushedProduct_scrapeAux (n : Nat) (rand : Nat → ℚ) :
    ∀ (l : List (String × UrlStep)) (i : Nat),
      (scrapeAux n rand i l).filterMap pushedProduct = l.filterMap recordOf
  | [], _ => rfl
  | (url, step) :: rest, i => by
      simp only [scrapeAux, List.filterMap_append, List.filterMap_cons,
        filterMap_pushedProduct_iterEvents,
        filterMap_pushedProduct_scrapeAux n rand rest (i + 1)]
      cases h : recordOf (url, step) <;> simp [h]

lemma mem_scrapeAux_iff (n : Nat) (rand : Nat → ℚ) (e : Event) :
    ∀ (l : List (String × UrlStep)) (i : Nat),
      e ∈ scrapeAux n rand i l ↔
        ∃ k url step, l.get? k = some (url, step) ∧
          e ∈ iterEvents n (i + k) url step (rand (i + k))
  | [], i => by simp [scrapeAux]
  | (url, step) :: rest, i => by
      simp only [scrapeAux, List.mem_append, mem_scrapeAux_iff n rand e rest (i + 1)]
      constructor
      · rintro (h | ⟨k, url', step', hget, hmem⟩)
        · exact ⟨0, url, step, rfl, by simpa using h⟩
        · refine ⟨k + 1, url', step', by simpa using hget, ?_⟩
          have : i + 1 + k = i + (k + 1) := by omega
          rwa [this] at hmem
      · rintro ⟨k, url', step', hget, hmem⟩
        cases k with
        | zero =>
            left
            simp only [List.get?_cons_zero, Option.some.injEq] at hget
            cases hget
            simpa using hmem
        | succ k =>
            right
            refine ⟨k, url', step', by simpa using hget, ?_⟩
            have : i + (k + 1) = i + 1 + k := by omega
            rwa [this] at hmem

lemma openContext_mem_iterEvents (n i j : Nat) (url : String) (step : UrlStep) (r : ℚ) :
    Event.openContext j ∈ iterEvents n i url step r ↔ j = i ∧ opensContext step = true := by
  cases step with
  | ctxError e => simp [iterEvents, opensContext]
  | navError e => simp [iterEvents, opensContext]
  | navOk outcome =>
      by_cases hlt : i < n - 1 <;> simp [iterEvents, opensContext, hlt]

lemma closeContext_mem_iterEvents (n i j : Nat) (url : String) (step : UrlStep) (r : ℚ) :
    Event.closeContext j ∈ iterEvents n i url step r ↔ j = i ∧ closesContext step = true := by
  cases step with
  | ctxError e => simp [iterEvents, closesContext]
  | navError e => simp [iterEvents, closesContext]
  | navOk outcome =>
      by_cases hlt : i < n - 1 <;> simp [iterEvents, closesContext, hlt]

lemma delay_mem_iterEvents (n i : Nat) (d : Nat) (url : String) (step : UrlStep) (r : ℚ) :
    Event.delay d ∈ iterEvents n i url step r ↔
      (∃ outcome, step = .navOk outcome) ∧ i < n - 1 ∧ d = randomDelay r := by
  cases step with
  | ctxError e => simp [iterEvents]
  | navError e => simp [iterEvents]
  | navOk outcome =>
      by_cases hlt : i < n - 1 <;> simp [iterEvents, hlt]

lemma randomDelay_bounds (r : ℚ) (h0 : 0 ≤ r) (h1 : r < 1) :
    1000 ≤ randomDelay r ∧ randomDelay r ≤ 2999 := by
  unfold randomDelay
  have hlt : r * 2000 < 2000 := by nlinarith
  have hub : ⌊r * 2000⌋ < 2000 := by
    exact_mod_cast lt_of_le_of_lt (Int.floor_le (r * 2000)) hlt |>.trans_le (le_refl _)
  omega

/-! Claim theorems. -/

/-- C1 (amended): `scrapeProducts` returns, in input order, exactly one
record per URL whose navigation succeeded — the extraction result, a
placeholder on extraction failure.  A URL whose context creation or
navigation throws contributes no record at all, so the output is a
`filterMap` of the input (never longer, and shorter whenever a navigation
fails). -/
theorem scrapeProducts_inorder_of_navOk (inputs : List (String × UrlStep)) (rand : Nat → ℚ) :
    scrapeProducts inputs rand = inputs.filterMap recordOf ∧
    (scrapeProducts inputs rand).length ≤ inputs.length := by
  have h := filterMap_pushedProduct_scrapeAux inputs.length rand inputs 0
  constructor
  · exact h
  · rw [scrapeProducts, scrapeTrace, h]
    exact List.length_filterMap_le _ _

/-- C1 counterexample: a one-URL run whose navigation times out produces
an empty output array, so `count(output) == count(input URLs)` fails: a
per-URL navigation failure is an omission, not a placeholder. -/
theorem scrapeProducts_navError_omits :
    (scrapeProducts navFailRun (fun _ => 0)).length ≠ navFailRun.length := by decide

/-- C2 (amended): for every iteration of the loop, the trace closes the
iteration's browsing context exactly when navigation and extraction both
completed (`closesContext`); an iteration whose `page.goto` throws opens
its context (`opensContext`) but never closes it before the loop moves
on. -/
theorem scrapeTrace_context_close_iff (inputs : List (String × UrlStep)) (rand : Nat → ℚ)
    (j : Nat) (url : String) (step : UrlStep) (h : inputs.get? j = some (url, step)) :
    (Event.openContext j ∈ scrapeTrace inputs rand ↔ opensContext step = true) ∧
    (Event.closeContext j ∈ scrapeTrace inputs rand ↔ closesContext step = true) := by
  constructor
  · rw [scrapeTrace, mem_scrapeAux_iff]
    simp only [Nat.zero_add]
    constructor
    · rintro ⟨k, url', step', hget, hmem⟩
      rw [openContext_mem_iterEvents] at hmem
      obtain ⟨hjk, hopen⟩ := hmem
      subst hjk
      rw [h] at hget
      injection hget with hpair
      cases hpair
      exact hopen
    · intro hstep
      exact ⟨j, url, step, h, by rw [openContext_mem_iterEvents]; exact ⟨rfl, hstep⟩⟩
  · rw [scrapeTrace, mem_scrapeAux_iff]
    simp only [Nat.zero_add]
    constructor
    · rintro ⟨k, url', step', hget, hmem⟩
      rw [closeContext_mem_iterEvents] at hmem
      obtain ⟨hjk, hclose⟩ := hmem
      subst hjk
      rw [h] at hget
      injection hget with hpair
      cases hpair
      exact hclose
    · intro hstep
      exact ⟨j, url, step, h, by rw [closeContext_mem_iterEvents]; exact ⟨rfl, hstep⟩⟩

/-- C2 witness: on a one-URL run that succeeds, the context is both
opened and closed. -/
theorem scrapeTrace_context_close_iff_witness :
    (Event.openContext 0 ∈
        scrapeTrace [("https://u", UrlStep.navOk (.success sampleListing))] (fun _ => 0) ↔
      opensContext (UrlStep.navOk (.success sampleListing)) = true) ∧
    (Event.closeContext 0 ∈
        scrapeTrace [("https://u", UrlStep.navOk (.success sampleListing))] (fun _ => 0) ↔
      closesContext (UrlStep.navOk (.success sampleListing)) = true) :=
  scrapeTrace_context_close_iff _ _ 0 "https://u" (UrlStep.navOk (.success sampleListing)) rfl

/-- C2 counterexample: in a run whose first navigation throws, the context
opened for URL 0 is never closed, even though the loop moves on to URL 1. -/
theorem scrapeTrace_context_leak :
    Event.openContext 0 ∈ scrapeTrace leakRun (fun _ => 0) ∧
    Event.closeContext 0 ∉ scrapeTrace leakRun (fun _ => 0) := by decide

/-- C3 (amended): a delay event occurs exactly after each successfully
processed URL other than the last, with value
`Math.floor(r * 2000) + 1000` for that iteration's `Math.random()` draw
`r`; under `0 ≤ r < 1` every delay lies in `[1000, 2999]` milliseconds
(so `3000` is never drawn).  No delay follows the final URL, and no delay
follows a URL whose iteration threw. -/
theorem scrapeTrace_delay_lawful (inputs : List (String × UrlStep)) (rand : Nat → ℚ)
    (hr : ∀ i, 0 ≤ rand i ∧ rand i < 1) :
    (∀ d, Event.delay d ∈ scrapeTrace inputs rand ↔
        ∃ i, (∃ url outcome, inputs.get? i = some (url, UrlStep.navOk outcome)) ∧
          i < inputs.length - 1 ∧ d = randomDelay (rand i)) ∧
    (∀ d, Event.delay d ∈ scrapeTrace inputs rand → 1000 ≤ d ∧ d ≤ 2999) := by
  have hmem : ∀ d, Event.delay d ∈ scrapeTrace inputs rand ↔
      ∃ i, (∃ url outcome, inputs.get? i = some (url, UrlStep.navOk outcome)) ∧
        i < inputs.length - 1 ∧ d = randomDelay (rand i) := by
    intro d
    rw [scrapeTrace, mem_scrapeAux_iff]
    simp only [Nat.zero_add]
    constructor
    · rintro ⟨k, url, step, hget, hd⟩
      rw [delay_mem_iterEvents] at hd
      obtain ⟨⟨outcome, rfl⟩, hlt, rfl⟩ := hd
      exact ⟨k, ⟨url, outcome, hget⟩, hlt, rfl⟩
    · rintro ⟨i, ⟨url, outcome, hget⟩, hlt, rfl⟩
      exact ⟨i, url, UrlStep.navOk outcome, hget,
        by rw [delay_mem_iterEvents]; exact ⟨⟨outcome, rfl⟩, hlt, rfl⟩⟩
  refine ⟨hmem, fun d hd => ?_⟩
  obtain ⟨i, -, -, rfl⟩ := (hmem d).1 hd
  exact randomDelay_bounds (rand i) (hr i).1 (hr i).2

/-- C3 witness: in a two-URL run where both succeed and the random draw
is 0, the delay 1000 ms occurs and lies in the proven bounds. -/
theorem scrapeTrace_delay_lawful_witness :
    Event.delay 1000 ∈ scrapeTrace twoOkRun (fun _ => 0) ∧ 1000 ≤ 1000 ∧ 1000 ≤ 2999 := by
  have hr : ∀ i : Nat, 0 ≤ (fun _ : Nat => (0 : ℚ)) i ∧ (fun _ : Nat => (0 : ℚ)) i < 1 := by
    intro i; norm_num
  have h := scrapeTrace_delay_lawful twoOkRun (fun _ => 0) hr
  have hmem : Event.delay 1000 ∈ scrapeTrace twoOkRun (fun _ => 0) := by
    rw [h.1 1000]
    refine ⟨0, ⟨"https://a", .success sampleListing, by decide⟩, by decide, ?_⟩
    rw [randomDelay]
    norm_num
  exact ⟨hmem, h.2 1000 hmem⟩

/-- C3 counterexample: a two-URL run whose first iteration throws contains
no delay event at all, although URL 0 is not the last URL — the delay is
skipped on the failure path, contrary to the claim's "after processing
URL i ... for every i < n-1". -/
theorem scrapeTrace_delay_skipped :
    delaySkippedRun.length = 2 ∧
    (scrapeTrace delaySkippedRun (fun _ => 0)).filter isDelay = [] := by decide

/-- C4: when the extraction call throws, `extractProductInfo` returns the
placeholder: title `"Extraction Failed"`, description the prefix
`"Failed to extract information: "` followed by (hence containing) the
normalized error message, empty `imageUrl`, `originalUrl` the input URL,
and every remaining field the sentinel `"Unknown"`. -/
theorem extractProductInfo_failure_placeholder (e : JSVal) (url : String) :
    (extractProductInfo (.failure e) url).title = "Extraction Failed" ∧
    (extractProductInfo (.failure e) url).description =
      "Failed to extract information: " ++ errorMessage e ∧
    (∃ pre, (extractProductInfo (.failure e) url).description = pre ++ errorMessage e) ∧
    (extractProductInfo (.failure e) url).imageUrl = "" ∧
    (extractProductInfo (.failure e) url).originalUrl = url ∧
    (extractProductInfo (.failure e) url).price = "Unknown" ∧
    (extractProductInfo (.failure e) url).brand = "Unknown" ∧
    (extractProductInfo (.failure e) url).model = "Unknown" ∧
    (extractProductInfo (.failure e) url).cpu = "Unknown" ∧
    (extractProductInfo (.failure e) url).ram = "Unknown" ∧
    (extractProductInfo (.failure e) url).storage = "Unknown" ∧
    (extractProductInfo (.failure e) url).availability = "Unknown" ∧
    (extractProductInfo (.failure e) url).quantity = "Unknown" ∧
    (extractProductInfo (.failure e) url).location = "Unknown" :=
  ⟨rfl, rfl, ⟨"Failed to extract information: ", rfl⟩, rfl, rfl, rfl, rfl, rfl,
   rfl, rfl, rfl, rfl, rfl, rfl⟩

lemma pricesOf_filter_successful (products : List Product)
    (h : ∀ p ∈ products, p.title = "Extraction Failed" → p.price = "Unknown") :
    pricesOf products = pricesOf (products.filter fun p => p.title != "Extraction Failed") := by
  induction products with
  | nil => rfl
  | cons p ps ih =>
      have hps : ∀ q ∈ ps, q.title = "Extraction Failed" → q.price = "Unknown" :=
        fun q hq => h q (List.mem_cons_of_mem _ hq)
      by_cases hp : p.title = "Extraction Failed"
      · have hpr : p.price = "Unknown" := h p (by simp) hp
        simp only [pricesOf, List.filter_cons, List.filterMap_cons]
        have hb : (p.title != "Extraction Failed") = false := by simp [hp]
        rw [hb]
        simp only [Bool.false_eq_true, if_false]
        rw [hpr, parsePrice, if_pos rfl]
        simpa [pricesOf] using ih hps
      · simp only [pricesOf, List.filter_cons, List.filterMap_cons]
        have hb : (p.title != "Extraction Failed") = true := by simp [hp]
        rw [hb]
        simp only [if_true]
        rw [List.filterMap_cons]
        cases hpp : parsePrice p.price <;>
          · simp only [hpp]
            simpa [pricesOf] using ih hps

lemma parsePrice_100 : parsePrice "$100" = some 100 := by
  have h : parseFloatParts (stripNonNumeric "$100") = some (100, 0, 0) := by decide
  rw [parsePrice, if_neg (by decide), parseFloatDigits, h]
  norm_num

lemma parsePrice_300 : parsePrice "$300" = some 300 := by
  have h : parseFloatParts (stripNonNumeric "$300") = some (300, 0, 0) := by decide
  rw [parsePrice, if_neg (by decide), parseFloatDigits, h]
  norm_num

lemma parsePrice_50 : parsePrice "$50" = some 50 := by
  have h : parseFloatParts (stripNonNumeric "$50") = some (50, 0, 0) := by decide
  rw [parsePrice, if_neg (by decide), parseFloatDigits, h]
  norm_num

lemma parsePrice_unknown : parsePrice "Unknown" = none := by
  rw [parsePrice, if_pos rfl]

lemma pricesOf_statsRun : pricesOf statsRun = [100, 300] := by
  simp [pricesOf, statsRun, List.filterMap_cons, parsePrice_100, parsePrice_300,
    extractProductInfo, parsePrice_unknown]

lemma priceStats_statsRun : priceStats statsRun = some (100, 300, 200) := by
  rw [priceStats, if_pos (by decide : 0 < successfulCount statsRun), pricesOf_statsRun]
  simp [jsMin, jsMax]
  norm_num

/-- C5 (amended): the statistics exclude every record whose `price` does
not survive the strip-and-parse step (placeholders do not, since their
price is the sentinel `"Unknown"`), so on any record list in which every
failure-titled record carries price `"Unknown"` — as all pipeline
placeholders do — the parsed price list coincides with that of the
successful-record subset; on the specification's example (prices
`"$100"`, `"$300"`, `"Unknown"`) the reported min/max/mean are
100/300/200.  The code, however, never consults the title when building
the price list. -/
theorem priceStats_exclusion (products : List Product)
    (h : ∀ p ∈ products, p.title = "Extraction Failed" → p.price = "Unknown") :
    pricesOf products = pricesOf (products.filter fun p => p.title != "Extraction Failed") ∧
    priceStats statsRun = some (100, 300, 200) :=
  ⟨pricesOf_filter_successful products h, priceStats_statsRun⟩

/-- C5 witness: the specification's example list satisfies the
placeholder hypothesis and yields min 100, max 300, mean 200. -/
theorem priceStats_exclusion_witness :
    pricesOf statsRun = pricesOf (statsRun.filter fun p => p.title != "Extraction Failed") ∧
    priceStats statsRun = some (100, 300, 200) :=
  priceStats_exclusion statsRun (by decide)

/-- C5 counterexample: a record titled `"Extraction Failed"` but priced
`"$50"` is included in the statistics (min 50, mean 175), although the
successful-record subset parses to `[300]` alone — the statistics are not
computed only over the successful subset. -/
theorem priceStats_title_ignored :
    priceStats mixedRun = some (50, 300, 175) ∧
    pricesOf (mixedRun.filter fun p => p.title != "Extraction Failed") = [300] := by
  constructor
  · have hp : pricesOf mixedRun = [50, 300] := by
      simp [pricesOf, mixedRun, List.filterMap_cons, parsePrice_50, parsePrice_300]
    rw [priceStats, if_pos (by decide : 0 < successfulCount mixedRun), hp]
    simp [jsMin, jsMax]
    norm_num
  · have hfil : mixedRun.filter (fun p => p.title != "Extraction Failed") =
        [{ sampleListing with price := "$300" }] := by decide
    rw [hfil]
    simp [pricesOf, List.filterMap_cons, parsePrice_300]

lemma escapeQuotes_eq_flatMap (cs : List Char) :
    escapeQuotes cs = cs.flatMap fun c => if c = '"' then ['"', '"'] else [c] := by
  induction cs with
  | nil => rfl
  | cons c cs ih => by_cases hc : c = '"' <;> simp [escapeQuotes, hc, ih]

/-- C6: every non-empty CSV field is wrapped in double quotes with each
internal double quote doubled, and an empty field renders as an empty
unquoted cell (the function agrees with the specification's wording
`specEscapedCell` everywhere); in particular the field
`He said "hi", ok` serializes as `"He said ""hi"", ok"`. -/
theorem escapeCsvCell_spec :
    (∀ cell, escapeCsvCell cell = specEscapedCell cell) ∧
    escapeCsvCell "He said \"hi\", ok" = "\"He said \"\"hi\"\", ok\"" ∧
    escapeCsvCell "" = "" := by
  refine ⟨fun cell => ?_, by decide, rfl⟩
  rw [escapeCsvCell, specEscapedCell, escapeQuotes_eq_flatMap]

/-- C7: when JSON parsing of the input file fails, `readUrlsFromFile`
takes the text branch and returns exactly the lines of the content that,
after trimming, are non-empty and begin with `http` — an order-preserving
sublist of the trimmed lines; on a file with a blank line, a comment-like
line and two `http` lines it returns exactly those two lines in order. -/
theorem readUrls_text_fallback_filters (content : String) :
    (readUrlsFromFile content none).2 = UrlsPath.textFallback ∧
    (readUrlsFromFile content none).1 = (textUrls content).map Json.jstr ∧
    (∀ l ∈ textUrls content, l.data ≠ [] ∧ httpChars.isPrefixOf l.data = true) ∧
    (textUrls content).Sublist (((splitLines content.data).map trimChars).map String.mk) ∧
    textUrls "\n# not a url\nhttp://a\n  http://b  " = ["http://a", "http://b"] := by
  refine ⟨rfl, rfl, ?_, ?_, by decide⟩
  · intro l hl
    rw [textUrls] at hl
    obtain ⟨cs, hcs, rfl⟩ := List.mem_map.1 hl
    obtain ⟨-, hq⟩ := List.mem_filter.1 hcs
    rw [Bool.and_eq_true] at hq
    obtain ⟨hlen, hpre⟩ := hq
    refine ⟨?_, hpre⟩
    intro hnil
    have hcs0 : cs = [] := hnil
    rw [hcs0] at hlen
    simp at hlen
  · rw [textUrls]
    exact (List.filter_sublist _).map String.mk

/-- C7 witness: on the concrete plain-text file the text path is taken,
the returned line `http://a` is non-empty and `http`-prefixed, and the
result is exactly the two valid lines. -/
theorem readUrls_text_fallback_filters_witness :
    (readUrlsFromFile "\n# not a url\nhttp://a\n  http://b  " none).2 = UrlsPath.textFallback ∧
    ("http://a".data ≠ [] ∧ httpChars.isPrefixOf "http://a".data = true) ∧
    textUrls "\n# not a url\nhttp://a\n  http://b  " = ["http://a", "http://b"] :=
  ⟨(readUrls_text_fallback_filters "\n# not a url\nhttp://a\n  http://b  ").1,
   (readUrls_text_fallback_filters "\n# not a url\nhttp://a\n  http://b  ").2.2.1
     "http://a" (by decide),
   (readUrls_text_fallback_filters "\n# not a url\nhttp://a\n  http://b  ").2.2.2.2⟩

/-- C8: when the credential variable is absent, the run performs only the
output-directory creation and the error log: the browser is never
launched and neither the JSON nor the CSV artifact is written. -/
theorem missing_credential_no_output (inputs : List (String × UrlStep)) (rand : Nat → ℚ)
    (outputPrefix : String) :
    mainRun none inputs rand outputPrefix =
      [TopEvent.createOutputDir,
       TopEvent.logError "OPENAI_API_KEY environment variable is not set"] ∧
    (∀ fname, TopEvent.writeJsonFile fname ∉ mainRun none inputs rand outputPrefix) ∧
    (∀ fname, TopEvent.writeCsvFile fname ∉ mainRun none inputs rand outputPrefix) ∧
    TopEvent.browserLaunch ∉ mainRun none inputs rand outputPrefix := by
  have hmain : mainRun none inputs rand outputPrefix =
      [TopEvent.createOutputDir,
       TopEvent.logError "OPENAI_API_KEY environment variable is not set"] := rfl
  refine ⟨hmain, ?_, ?_, ?_⟩ <;> rw [hmain] <;> simp

/-- C8 witness: concrete instance of the missing-credential run with the
default output prefix. -/
theorem missing_credential_no_output_witness :
    mainRun none [] (fun _ => 0) "pc_listings" =
      [TopEvent.createOutputDir,
       TopEvent.logError "OPENAI_API_KEY environment variable is not set"] ∧
    TopEvent.writeJsonFile "pc_listings.json" ∉ mainRun none [] (fun _ => 0) "pc_listings" ∧
    TopEvent.writeCsvFile "pc_listings.csv" ∉ mainRun none [] (fun _ => 0) "pc_listings" ∧
    TopEvent.browserLaunch ∉ mainRun none [] (fun _ => 0) "pc_listings" :=
  ⟨(missing_credential_no_output [] (fun _ => 0) "pc_listings").1,
   (missing_credential_no_output [] (fun _ => 0) "pc_listings").2.1 "pc_listings.json",
   (missing_credential_no_output [] (fun _ => 0) "pc_listings").2.2.1 "pc_listings.csv",
   (missing_credential_no_output [] (fun _ => 0) "pc_listings").2.2.2⟩

/-- C9 (amended): for valid JSON that is neither an array, nor JSON
`null`, nor an object with a truthy array-valued `urls` property, the
function reaches the internal `throw`, the outer catch returns the empty
list and `main` falls back to the example URLs; JSON `null`, however,
throws a `TypeError` at the `jsonData.urls` access within the inner
`try`, so the line-oriented fallback runs instead of the internal
error. -/
theorem readUrls_bad_json_shape (content : String) (j : Json)
    (harr : isArray j = false) (hnull : j ≠ Json.jnull)
    (hurls : ∀ fields, j = Json.jobj fields → ∀ u, fields.lookup "urls" = some u →
      (jsTruthy u && isArray u) = false) :
    readUrlsFromFile content (some j) = ([], UrlsPath.errorCaught) ∧
    chooseUrls (readUrlsFromFile content (some j)).1 = exampleUrls.map Json.jstr ∧
    readUrlsFromFile content (some Json.jnull) =
      ((textUrls content).map Json.jstr, UrlsPath.textFallback) := by
  have h1 : readUrlsFromFile content (some j) = ([], UrlsPath.errorCaught) := by
    cases j with
    | jnull => exact absurd rfl hnull
    | jarr elems => simp [isArray] at harr
    | jobj fields =>
        cases hl : fields.lookup "urls" with
        | none => simp [readUrlsFromFile, hl]
        | some u => simp [readUrlsFromFile, hl, hurls fields rfl u hl]
    | jbool b => rfl
    | jnum q => rfl
    | jstr s => rfl
  refine ⟨h1, ?_, rfl⟩
  rw [h1]
  rfl

/-- C9 witness: the JSON number 42 yields the caught-error path, the
empty list, and the example-URL fallback. -/
theorem readUrls_bad_json_shape_witness :
    readUrlsFromFile "42" (some (Json.jnum 42)) = ([], UrlsPath.errorCaught) ∧
    chooseUrls (readUrlsFromFile "42" (some (Json.jnum 42))).1 = exampleUrls.map Json.jstr ∧
    readUrlsFromFile "42" (some Json.jnull) =
      ((textUrls "42").map Json.jstr, UrlsPath.textFallback) :=
  readUrls_bad_json_shape "42" (Json.jnum 42) rfl
    (fun h => Json.noConfusion h)
    (fun _ h => Json.noConfusion h)

/-- C9 counterexample: the content `null` parses as JSON `null`, which is
neither an array nor an object with a `urls` array, yet the function
takes the line-oriented fallback path, not the internal-error path (the
result happens to be the empty list anyway). -/
theorem readUrls_null_text_fallback :
    (readUrlsFromFile "null" (some Json.jnull)).2 = UrlsPath.textFallback ∧
    UrlsPath.textFallback ≠ UrlsPath.errorCaught ∧
    (readUrlsFromFile "null" (some Json.jnull)).1 = [] :=
  ⟨rfl, by decide, rfl⟩

/-- C10: the catch-branch normalization is total over thrown values: an
`Error` instance yields its `message` field, a string yields itself, a
non-`Error` object with a `message` property yields the stringified
property, and every other value (object without `message`, `null`,
`undefined`, numbers, booleans) yields the fallback `"Unknown error"`;
the placeholder's description is always
`"Failed to extract information: "` followed by that message. -/
theorem errorMessage_total_normalization (e : JSVal) (url : String) :
    (extractProductInfo (.failure e) url).description =
      "Failed to extract information: " ++ errorMessage e ∧
    (∀ m, errorMessage (.errorObj m) = m) ∧
    (∀ s, errorMessage (.str s) = s) ∧
    (∀ v, errorMessage (.objWithMessage v) = jsToString v) ∧
    errorMessage .objPlain = "Unknown error" ∧
    errorMessage .nullV = "Unknown error" ∧
    errorMessage .undef = "Unknown error" ∧
    (∀ n, errorMessage (.num n) = "Unknown error") ∧
    (∀ b, errorMessage (.boolV b) = "Unknown error") :=
  ⟨rfl, fun _ => rfl, fun _ => rfl, fun _ => rfl, rfl, rfl, rfl, fun _ => rfl, fun _ => rfl⟩

end FBScraper
